import Mathlib

/-!
Verification development for the ottokode WebSocket relay
(src/src-tauri/src/websocket_server.rs and src/src-tauri/src/lib.rs).

The Rust code is shallowly embedded: JSON values become an inductive type,
the per-connection Reader and Writer loops become list-processing functions
over scripts of environment events, and the whole of handle_connection
becomes a trace-producing function whose effects (registry inserts/removes,
frames written to the transport, publications onto the broadcast bus,
dispatch-hook invocations, log lines) are recorded in order.  Concurrent
interleaving of the Reader and Writer tasks is modelled by an explicit
schedule parameter.
-/

/-- Shallow embedding of serde_json::Value. -/
inductive Json where
  | null : Json
  | bool (b : Bool) : Json
  | num (n : Int) : Json
  | str (s : String) : Json
  | arr (elems : List Json) : Json
  | obj (fields : List (String × Json)) : Json

/-- Embeds Value::get(key): object field lookup, None on non-objects. -/
def Json.get : Json → String → Option Json
  | Json.obj fields, key => fields.lookup key
  | _, _ => none

/-- Embeds Value::as_str(): Some for strings, None otherwise. -/
def Json.asStr : Json → Option String
  | Json.str s => some s
  | _ => none

/-- Embeds struct WebSocketMessage (websocket_server.rs lines 11-17). -/
structure WebSocketMessage where
  message_type : String
  data : Json
  timestamp : Nat
  source : Option String

/-- Which dispatch arm of the incoming match a message type selects
(websocket_server.rs lines 146-162). -/
inductive DispatchTag where
  | handshake
  | codeSnippetCaptured
  | analyzeCodeRequest
  | sendToDesktop
  | unknown
deriving DecidableEq

/-- Embeds the match on ws_message.message_type.as_str() in the incoming
task: the four recognized operational types and the catch-all arm. -/
def dispatchTag (t : String) : DispatchTag :=
  if t = "HANDSHAKE" then DispatchTag.handshake
  else if t = "CODE_SNIPPET_CAPTURED" then DispatchTag.codeSnippetCaptured
  else if t = "ANALYZE_CODE_REQUEST" then DispatchTag.analyzeCodeRequest
  else if t = "SEND_TO_DESKTOP" then DispatchTag.sendToDesktop
  else DispatchTag.unknown

/-- One item yielded by ws_receiver.next() in the incoming task.
A text frame carries the result of serde_json::from_str on its payload:
some message when the frame decodes as an Envelope, none when malformed.
close is an Ok(Message::Close) item, errEvent an Err item, and other
covers the remaining frame kinds (binary, ping, pong). -/
inductive InEvent where
  | text (decoded : Option WebSocketMessage)
  | close
  | errEvent
  | other

/-- Observable actions of the Reader loop: invoking a dispatch arm for a
decoded message, and republishing a decoded message onto the broadcast
bus via global_sender.send. -/
inductive ReaderAction where
  | dispatch (tag : DispatchTag) (m : WebSocketMessage)
  | publish (m : WebSocketMessage)

/-- Embeds the incoming task loop (websocket_server.rs lines 138-179):
a decoded text frame is dispatched by type and then republished onto the
broadcast bus; a malformed text frame is silently skipped; Close and Err
break the loop; other frame kinds are ignored; end of stream ends the
loop. -/
def readerLoop : List InEvent → List ReaderAction
  | [] => []
  | InEvent.text (some m) :: rest =>
      ReaderAction.dispatch (dispatchTag m.message_type) m ::
      ReaderAction.publish m :: readerLoop rest
  | InEvent.text none :: rest => readerLoop rest
  | InEvent.close :: _ => []
  | InEvent.errEvent :: _ => []
  | InEvent.other :: rest => readerLoop rest

/-- True on the events that break the incoming loop (Close and Err). -/
def InEvent.terminal : InEvent → Bool
  | InEvent.close => true
  | InEvent.errEvent => true
  | _ => false

/-- The messages a list of reader actions publishes onto the broadcast
bus, in order. -/
def publishedOf : List ReaderAction → List WebSocketMessage
  | [] => []
  | ReaderAction.publish m :: rest => m :: publishedOf rest
  | ReaderAction.dispatch _ _ :: rest => publishedOf rest

/-- The successfully decoded envelopes among a list of inbound events, in
order. -/
def decodedOf : List InEvent → List WebSocketMessage
  | [] => []
  | InEvent.text (some m) :: rest => m :: decodedOf rest
  | InEvent.text none :: rest => decodedOf rest
  | InEvent.close :: rest => decodedOf rest
  | InEvent.errEvent :: rest => decodedOf rest
  | InEvent.other :: rest => decodedOf rest

/-- One item received from the connection's private outbound channel in
the outgoing task, together with the environment outcomes the code
branches on: serResult is the result of serde_json::to_string(&message)
(some json string, or none on serialization failure) and writeOk is the
outcome of ws_sender.send on the serialized frame. -/
structure OutItem where
  message : WebSocketMessage
  serResult : Option String
  writeOk : Bool

/-- Observable actions of the Writer loop: logging a serialization
failure and continuing, writing a frame to the transport, or logging a
transport write failure and stopping. -/
inductive WriterAction where
  | logSerError (m : WebSocketMessage)
  | wrote (m : WebSocketMessage)
  | logWriteError (m : WebSocketMessage)

/-- Embeds the outgoing task loop (websocket_server.rs lines 182-197):
serialization failure logs and continues with the next item; a
successful write continues; a transport write failure logs and breaks;
channel closure (end of list) ends the loop. -/
def writerLoop : List OutItem → List WriterAction
  | [] => []
  | it :: rest =>
      match it.serResult with
      | none => WriterAction.logSerError it.message :: writerLoop rest
      | some _ =>
          if it.writeOk then WriterAction.wrote it.message :: writerLoop rest
          else [WriterAction.logWriteError it.message]

/-- Ordered effects of one handle_connection call.  sentMessage records a
ws_sender.send of a serialized envelope; relayed is false for the send at
line 131 (the welcome the handler originates) and true for sends issued
by the Writer loop at line 192 (envelopes relayed from the session's
outbound channel). -/
inductive ConnEffect where
  | registryInsert (id : String)
  | sentMessage (relayed : Bool) (m : WebSocketMessage)
  | dispatched (tag : DispatchTag) (m : WebSocketMessage)
  | published (m : WebSocketMessage)
  | logged
  | registryRemove (id : String)

/-- Views a Reader-loop action as a connection effect. -/
def readerEffect : ReaderAction → ConnEffect
  | ReaderAction.dispatch t m => ConnEffect.dispatched t m
  | ReaderAction.publish m => ConnEffect.published m

/-- Views a Writer-loop action as a connection effect. -/
def writerEffect : WriterAction → ConnEffect
  | WriterAction.logSerError _ => ConnEffect.logged
  | WriterAction.wrote m => ConnEffect.sentMessage true m
  | WriterAction.logWriteError _ => ConnEffect.logged

/-- Runs the two tasks' effect sequences concurrently under an explicit
scheduler until the FIRST of the two tasks completes (its sequence is
exhausted): each Boolean picks which task runs next, and an exhausted
schedule defaults to draining the first task.  Returns the merged
effects emitted up to the first completion, paired with the effects the
other, still-running task has yet to emit.  Models the race that
tokio::select! at websocket_server.rs line 200 observes. -/
def raceMerge : List Bool → List ConnEffect → List ConnEffect →
    List ConnEffect × List ConnEffect
  | _, [], ys => ([], ys)
  | _, x :: xs, [] => ([], x :: xs)
  | [], x :: xs, y :: ys => (x :: xs, y :: ys)
  | true :: sch, x :: xs, y :: ys =>
      let r := raceMerge sch xs (y :: ys)
      (x :: r.1, r.2)
  | false :: sch, x :: xs, y :: ys =>
      let r := raceMerge sch (x :: xs) ys
      (y :: r.1, r.2)

/-- The teardown portion of a handler trace: the merged effects up to
the first task's completion, then k further effects of the other
(abandoned but still running) task while the handler waits for the
registry lock, then the registry removal, then the rest of the
abandoned task's effects — tokio::select! returns when the first
JoinHandle completes, conns.remove runs once, and the other spawned
task is detached and keeps running. -/
def teardownTrace (sch : List Bool) (rdr wtr : List ConnEffect)
    (id : String) (k : Nat) : List ConnEffect :=
  (raceMerge sch rdr wtr).1 ++
    (raceMerge sch rdr wtr).2.take k ++
    ConnEffect.registryRemove id :: (raceMerge sch rdr wtr).2.drop k

/-- Environment script for one handle_connection call: whether
accept_async succeeds, the UUID generated for the connection, the clock
reading, whether the welcome send at line 131 succeeds, the inbound
events the incoming task sees, the outbound items the outgoing task
receives, the interleaving schedule of the two tasks, and how many
effects the abandoned task emits between the first task's completion
and the registry removal. -/
structure ConnScript where
  acceptOk : Bool
  connectionId : String
  now : Nat
  welcomeSendOk : Bool
  inEvents : List InEvent
  outItems : List OutItem
  schedule : List Bool
  removeDelay : Nat

/-- Embeds the welcome envelope built at websocket_server.rs lines
114-128: type WELCOME, data holding the assigned connection id and a
timestamp, source desktop. -/
def welcomeMessage (connectionId : String) (now : Nat) : WebSocketMessage :=
  { message_type := "WELCOME"
  , data := Json.obj
      [ ("connection_id", Json.str connectionId)
      , ("timestamp", Json.num (Int.ofNat now)) ]
  , timestamp := now
  , source := some "desktop" }

/-- Embeds handle_connection (websocket_server.rs lines 84-213) as its
effect trace.  If the websocket accept fails the function errors before
any effect.  Otherwise the session is inserted into the registry, the
welcome frame is sent, and if that send succeeds the incoming and
outgoing tasks run concurrently; when the first of them completes,
tokio::select! returns and the session is removed from the registry,
while the other task — its JoinHandle dropped — keeps running and may
emit further effects both before the removal (while the handler waits
for the registry lock) and after it.  A failed welcome send makes the
function return early via the question mark operator, before the tasks
are spawned. -/
def handleConnection (s : ConnScript) : List ConnEffect :=
  if s.acceptOk then
    ConnEffect.registryInsert s.connectionId ::
    ConnEffect.sentMessage false (welcomeMessage s.connectionId s.now) ::
    (if s.welcomeSendOk then
      teardownTrace s.schedule
        ((readerLoop s.inEvents).map readerEffect)
        ((writerLoop s.outItems).map writerEffect)
        s.connectionId s.removeDelay
    else [])
  else []

/-- True on the handler-originated (non-relayed) transport sends. -/
def ConnEffect.isDirectSend : ConnEffect → Bool
  | ConnEffect.sentMessage false _ => true
  | _ => false

/-- True on every transport send, relayed or handler-originated. -/
def ConnEffect.isSend : ConnEffect → Bool
  | ConnEffect.sentMessage _ _ => true
  | _ => false

/-- True on a registry removal of the given connection id. -/
def ConnEffect.isRemoveOf (id : String) : ConnEffect → Bool
  | ConnEffect.registryRemove i => i == id
  | _ => false

/-- Embeds struct ExtensionConnection (websocket_server.rs lines 19-24):
the session identity and its creation time; the per-session broadcast
sender is represented by its delivery effects below. -/
structure ExtensionConnection where
  id : String
  connected_at : Nat

/-- State of a WebSocketServer visible to the facade methods: the
registry of live sessions keyed by id, and the number of receivers
currently subscribed to the process-wide broadcast bus. -/
structure ServerState where
  connections : List (String × ExtensionConnection)
  busReceiverCount : Nat

/-- Delivery effects of the facade methods: an envelope enqueued onto one
session's private outbound channel, or an envelope published to the
subscribers of the broadcast bus. -/
inductive SendEffect where
  | sessionSend (id : String) (m : WebSocketMessage)
  | busPublish (m : WebSocketMessage)

/-- Embeds WebSocketServer::send_to_extension (websocket_server.rs lines
70-76): look the id up in the registry under the lock; if present, send
on that session's channel with the result discarded; either way return
Ok.  The returned state is the registry after the call. -/
def send_to_extension (st : ServerState) (extension_id : String)
    (m : WebSocketMessage) :
    ServerState × Except String Unit × List SendEffect :=
  match st.connections.lookup extension_id with
  | some conn => (st, Except.ok (), [SendEffect.sessionSend conn.id m])
  | none => (st, Except.ok (), [])

/-- Embeds WebSocketServer::broadcast_message (websocket_server.rs lines
65-68): message_sender.send with the result discarded (with zero
subscribed receivers the send delivers nothing and returns an error that
the code ignores), then Ok. -/
def broadcast_message (st : ServerState) (m : WebSocketMessage) :
    ServerState × Except String Unit × List SendEffect :=
  (st, Except.ok (),
    if st.busReceiverCount = 0 then [] else [SendEffect.busPublish m])

/-- Embeds the get_websocket_status command (websocket_server.rs lines
238-245): it returns a constant JSON object, independent of any server
state. -/
def get_websocket_status : Except String Json :=
  Except.ok (Json.obj
    [ ("status", Json.str "running")
    , ("port", Json.num 3001)
    , ("connected_extensions", Json.num 0) ])

/-- Embeds the port start_websocket_server actually binds (lib.rs line
22): ws_port = 3010. -/
def ws_port : Nat := 3010

/-- Embeds the send_to_browser_extension command (websocket_server.rs
lines 248-255): it logs the message and returns Ok without touching the
server instance, so it produces no delivery effects. -/
def send_to_browser_extension (message : Json) :
    Except String Unit × List SendEffect :=
  (Except.ok (), [])

/-- Embeds the envelope construction inside broadcast_to_extensions
(lib.rs lines 32-47): type from the input's "type" field as a string or
"UNKNOWN", data from the input's "data" field or null, the current
clock, and source "desktop". -/
def buildExtensionMessage (message : Json) (now : Nat) : WebSocketMessage :=
  { message_type :=
      (Option.bind (message.get "type") Json.asStr).getD "UNKNOWN"
  , data := (message.get "data").getD Json.null
  , timestamp := now
  , source := some "desktop" }

/-- Embeds the broadcast_to_extensions command (lib.rs lines 29-55):
when the global WS_SERVER cell is uninitialized the body is skipped and
Ok is returned; otherwise the envelope is built and broadcast_message is
called, its error (if any) mapped into the command's error string. -/
def broadcast_to_extensions (wsServer : Option ServerState) (message : Json)
    (now : Nat) : Except String Unit × List SendEffect :=
  match wsServer with
  | none => (Except.ok (), [])
  | some st =>
      let r := broadcast_message st (buildExtensionMessage message now)
      match r.2.1 with
      | Except.ok _ => (Except.ok (), r.2.2)
      | Except.error e =>
          (Except.error ("Failed to broadcast message: " ++ e), r.2.2)

/-- The effects emitted up to the first task's completion together with
the abandoned task's remaining effects are a permutation of the two
tasks' effect sequences: the race loses and duplicates nothing. -/
theorem raceMerge_perm (sch : List Bool) (xs ys : List ConnEffect) :
    ((raceMerge sch xs ys).1 ++ (raceMerge sch xs ys).2).Perm (xs ++ ys) := by
  induction sch generalizing xs ys with
  | nil =>
    cases xs with
    | nil =>
      simp only [raceMerge]
      exact List.Perm.refl _
    | cons x xs =>
      cases ys with
      | nil =>
        simp only [raceMerge, List.nil_append, List.append_nil]
        exact List.Perm.refl _
      | cons y ys =>
        simp only [raceMerge]
        exact List.Perm.refl _
  | cons b sch ih =>
    cases xs with
    | nil =>
      simp only [raceMerge]
      exact List.Perm.refl _
    | cons x xs =>
      cases ys with
      | nil =>
        simp only [raceMerge, List.nil_append, List.append_nil]
        exact List.Perm.refl _
      | cons y ys =>
        cases b with
        | true =>
          simp only [raceMerge, List.cons_append]
          exact (ih xs (y :: ys)).cons x
        | false =>
          simp only [raceMerge, List.cons_append]
          exact ((ih (x :: xs) ys).cons y).trans List.perm_middle.symm

/-- One of the two tasks emits all of its effects before the race is
decided: the merged prefix contains, as a sublist, the whole effect
sequence of the first-completed task. -/
theorem raceMerge_first_complete (sch : List Bool)
    (xs ys : List ConnEffect) :
    xs.Sublist (raceMerge sch xs ys).1 ∨
    ys.Sublist (raceMerge sch xs ys).1 := by
  induction sch generalizing xs ys with
  | nil =>
    cases xs with
    | nil => exact Or.inl (List.nil_sublist _)
    | cons x xs =>
      cases ys with
      | nil => exact Or.inr (List.nil_sublist _)
      | cons y ys => exact Or.inl (List.Sublist.refl _)
  | cons b sch ih =>
    cases xs with
    | nil => exact Or.inl (List.nil_sublist _)
    | cons x xs =>
      cases ys with
      | nil => exact Or.inr (List.nil_sublist _)
      | cons y ys =>
        cases b with
        | true =>
          rcases ih xs (y :: ys) with h | h
          · exact Or.inl (h.cons₂ x)
          · exact Or.inr (h.cons x)
        | false =>
          rcases ih (x :: xs) ys with h | h
          · exact Or.inl (h.cons y)
          · exact Or.inr (h.cons₂ y)

/-- Reader-loop effects are dispatches or publications: never a direct
transport send and never a registry removal. -/
theorem reader_effect_shape (a : ReaderAction) :
    (readerEffect a).isDirectSend = false ∧
    ∀ id, (readerEffect a).isRemoveOf id = false := by
  cases a <;>
    simp [readerEffect, ConnEffect.isDirectSend, ConnEffect.isRemoveOf]

/-- Writer-loop effects are relayed sends or log lines: never a direct
transport send and never a registry removal. -/
theorem writer_effect_shape (a : WriterAction) :
    (writerEffect a).isDirectSend = false ∧
    ∀ id, (writerEffect a).isRemoveOf id = false := by
  cases a <;>
    simp [writerEffect, ConnEffect.isDirectSend, ConnEffect.isRemoveOf]

/-- Every effect either loop emits is a dispatch, a publication, a
relayed send or a log line: never a direct send and never a registry
removal. -/
theorem loop_effect_shape (inE : List InEvent) (outI : List OutItem) :
    ∀ e ∈ (readerLoop inE).map readerEffect ++
        (writerLoop outI).map writerEffect,
      e.isDirectSend = false ∧ ∀ id, e.isRemoveOf id = false := by
  intro e he
  rcases List.mem_append.mp he with h | h
  · obtain ⟨a, _, rfl⟩ := List.mem_map.mp h
    exact reader_effect_shape a
  · obtain ⟨a, _, rfl⟩ := List.mem_map.mp h
    exact writer_effect_shape a

/-- Every effect of a teardown trace is the registry removal itself or
one of the two loops' effects. -/
theorem teardownTrace_mem (sch : List Bool) (rdr wtr : List ConnEffect)
    (id : String) (k : Nat)
    (hshape : ∀ e ∈ rdr ++ wtr,
      e.isDirectSend = false ∧ ∀ i, e.isRemoveOf i = false) :
    ∀ e ∈ teardownTrace sch rdr wtr id k,
      e = ConnEffect.registryRemove id ∨
      (e.isDirectSend = false ∧ ∀ i, e.isRemoveOf i = false) := by
  intro e he
  have hperm := raceMerge_perm sch rdr wtr
  rw [teardownTrace] at he
  rcases List.mem_append.mp he with h12 | h3
  · rcases List.mem_append.mp h12 with h1 | h2
    · exact Or.inr (hshape e (hperm.subset
        (List.mem_append.mpr (Or.inl h1))))
    · exact Or.inr (hshape e (hperm.subset (List.mem_append.mpr
        (Or.inr (List.take_subset _ _ h2)))))
  · rcases List.mem_cons.mp h3 with h | h4
    · exact Or.inl h
    · exact Or.inr (hshape e (hperm.subset (List.mem_append.mpr
        (Or.inr (List.drop_subset _ _ h4)))))

/-- A teardown trace contains no direct transport send. -/
theorem teardownTrace_filter_direct (sch : List Bool)
    (rdr wtr : List ConnEffect) (id : String) (k : Nat)
    (hshape : ∀ e ∈ rdr ++ wtr,
      e.isDirectSend = false ∧ ∀ i, e.isRemoveOf i = false) :
    (teardownTrace sch rdr wtr id k).filter ConnEffect.isDirectSend = [] := by
  rw [List.filter_eq_nil_iff]
  intro e he
  rcases teardownTrace_mem sch rdr wtr id k hshape e he with h | h
  · subst h
    simp [ConnEffect.isDirectSend]
  · simp [h.1]

/-- A teardown trace contains exactly one registry removal of the
connection's id: the one the handler performs. -/
theorem teardownTrace_filter_remove (sch : List Bool)
    (rdr wtr : List ConnEffect) (id : String) (k : Nat)
    (hshape : ∀ e ∈ rdr ++ wtr,
      e.isDirectSend = false ∧ ∀ i, e.isRemoveOf i = false) :
    (teardownTrace sch rdr wtr id k).filter (ConnEffect.isRemoveOf id) =
      [ConnEffect.registryRemove id] := by
  have hperm := raceMerge_perm sch rdr wtr
  have hP : ((raceMerge sch rdr wtr).1).filter (ConnEffect.isRemoveOf id)
      = [] := by
    rw [List.filter_eq_nil_iff]
    intro e he
    simp [(hshape e (hperm.subset (List.mem_append.mpr (Or.inl he)))).2 id]
  have hT : ((raceMerge sch rdr wtr).2.take k).filter
      (ConnEffect.isRemoveOf id) = [] := by
    rw [List.filter_eq_nil_iff]
    intro e he
    simp [(hshape e (hperm.subset (List.mem_append.mpr
      (Or.inr (List.take_subset _ _ he))))).2 id]
  have hD : ((raceMerge sch rdr wtr).2.drop k).filter
      (ConnEffect.isRemoveOf id) = [] := by
    rw [List.filter_eq_nil_iff]
    intro e he
    simp [(hshape e (hperm.subset (List.mem_append.mpr
      (Or.inr (List.drop_subset _ _ he))))).2 id]
  rw [teardownTrace, List.filter_append, List.filter_append,
    List.filter_cons]
  simp [hP, hT, hD, ConnEffect.isRemoveOf]

/-- The Reader loop publishes, in order, exactly the decoded envelopes of
the prefix of the event stream before the first loop-breaking event. -/
theorem readerLoop_published (evs : List InEvent) :
    publishedOf (readerLoop evs) =
      decodedOf (evs.takeWhile fun e => !e.terminal) := by
  induction evs with
  | nil => rfl
  | cons e rest ih =>
    cases e with
    | text d =>
      cases d with
      | none =>
        simpa [readerLoop, InEvent.terminal, List.takeWhile_cons,
          decodedOf] using ih
      | some m =>
        simpa [readerLoop, InEvent.terminal, List.takeWhile_cons,
          decodedOf, publishedOf] using ih
    | close => simp [readerLoop, InEvent.terminal, List.takeWhile_cons,
        decodedOf, publishedOf]
    | errEvent => simp [readerLoop, InEvent.terminal, List.takeWhile_cons,
        decodedOf, publishedOf]
    | other =>
      simpa [readerLoop, InEvent.terminal, List.takeWhile_cons,
        decodedOf] using ih


/-- C3: every inbound text frame that successfully decodes as an Envelope
is republished onto the Broadcast Bus exactly once, directly after its
type dispatch, whether or not its type is one of the recognized
operational types: the published messages are, in order, exactly the
decoded envelopes of the processed prefix of the stream, and a decoded
frame's step is one dispatch followed by one publication of that very
envelope. -/
theorem decoded_frame_republished_once (evs : List InEvent) :
    publishedOf (readerLoop evs) =
      decodedOf (evs.takeWhile fun e => !e.terminal) ∧
    ∀ (m : WebSocketMessage) (rest : List InEvent),
      readerLoop (InEvent.text (some m) :: rest) =
        ReaderAction.dispatch (dispatchTag m.message_type) m ::
        ReaderAction.publish m :: readerLoop rest :=
  ⟨readerLoop_published evs, fun _ _ => rfl⟩

/-- C4: a text frame that fails to decode as an Envelope is silently
discarded: the Reader produces no action for it and continues with the
remaining events exactly as if the frame had not arrived, so a
subsequent valid envelope is still dispatched and republished. -/
theorem malformed_frame_skipped (rest : List InEvent)
    (m : WebSocketMessage) :
    readerLoop (InEvent.text none :: rest) = readerLoop rest ∧
    readerLoop [InEvent.text none, InEvent.text (some m)] =
      [ReaderAction.dispatch (dispatchTag m.message_type) m,
       ReaderAction.publish m] :=
  ⟨rfl, rfl⟩

/-- C6: in the Writer loop, a serialization failure of one outbound
envelope is logged and the loop continues with the next envelope, while
a transport write failure is logged and terminates the loop. -/
theorem writer_error_handling (m : WebSocketMessage) (b : Bool)
    (s : String) (rest : List OutItem) :
    writerLoop ({ message := m, serResult := none, writeOk := b } :: rest) =
      WriterAction.logSerError m :: writerLoop rest ∧
    writerLoop ({ message := m, serResult := some s, writeOk := false }
        :: rest) =
      [WriterAction.logWriteError m] :=
  ⟨rfl, rfl⟩

/-- C8 (code bug): the send_to_browser_extension command only logs its
argument and returns Ok; it produces no delivery effect at all, so it
does not broadcast the message to the connected sessions as the spec
requires. -/
theorem send_to_browser_extension_unimplemented (message : Json) :
    send_to_browser_extension message = (Except.ok (), []) :=
  rfl

/-- C10: when the global server cell has never been initialized,
broadcast_to_extensions returns Ok for every input message and publishes
nothing. -/
theorem broadcast_before_start_noop (message : Json) (now : Nat) :
    broadcast_to_extensions none message now = (Except.ok (), []) :=
  rfl

/-- C9: broadcast_to_extensions builds its envelope totally: source is
always desktop, the timestamp is the clock reading, a missing "type"
field or a "type" field that is not a string yields message type
UNKNOWN, and a missing "data" field yields JSON null; construction is a
total function of the input value. -/
theorem extension_message_total (message : Json) (now : Nat) :
    (buildExtensionMessage message now).source = some "desktop" ∧
    (buildExtensionMessage message now).timestamp = now ∧
    (message.get "type" = none →
      (buildExtensionMessage message now).message_type = "UNKNOWN") ∧
    (∀ j, message.get "type" = some j → j.asStr = none →
      (buildExtensionMessage message now).message_type = "UNKNOWN") ∧
    (message.get "data" = none →
      (buildExtensionMessage message now).data = Json.null) := by
  refine ⟨rfl, rfl, ?_, ?_, ?_⟩
  · intro h
    simp [buildExtensionMessage, h]
  · intro j hj hs
    simp [buildExtensionMessage, hj, hs]
  · intro h
    simp [buildExtensionMessage, h]

/-- Witness for C9 at the concrete input with a numeric "type" field and
no "data" field. -/
theorem extension_message_total_witness :
    (Json.obj [("type", Json.num 1)]).get "type" = some (Json.num 1) ∧
    (buildExtensionMessage (Json.obj [("type", Json.num 1)])
      0).message_type = "UNKNOWN" ∧
    (buildExtensionMessage (Json.obj [("type", Json.num 1)]) 0).data =
      Json.null :=
  ⟨rfl,
   (extension_message_total (Json.obj [("type", Json.num 1)])
     0).2.2.2.1 (Json.num 1) rfl rfl,
   (extension_message_total (Json.obj [("type", Json.num 1)])
     0).2.2.2.2 rfl⟩

/-- C5: a targeted send to an id absent from the registry returns Ok,
leaves the state unchanged and delivers nothing; and broadcast_message
returns Ok with the state unchanged for every state, delivering nothing
when the bus has zero subscribed receivers. -/
theorem absent_send_and_empty_broadcast_ok (st : ServerState)
    (id : String) (m : WebSocketMessage)
    (h : st.connections.lookup id = none) :
    send_to_extension st id m = (st, Except.ok (), []) ∧
    (∀ (st2 : ServerState) (m2 : WebSocketMessage),
      (broadcast_message st2 m2).1 = st2 ∧
      (broadcast_message st2 m2).2.1 = Except.ok ()) ∧
    (∀ (st2 : ServerState) (m2 : WebSocketMessage),
      st2.busReceiverCount = 0 → (broadcast_message st2 m2).2.2 = []) := by
  refine ⟨?_, fun st2 m2 => ⟨rfl, rfl⟩, fun st2 m2 h2 => ?_⟩
  · simp [send_to_extension, h]
  · simp [broadcast_message, h2]

/-- Witness for C5 at the empty registry, the id "x" and a concrete
envelope. -/
theorem absent_send_and_empty_broadcast_ok_witness :
    (({ connections := [], busReceiverCount := 0 } :
        ServerState).connections.lookup "x" = none) ∧
    send_to_extension { connections := [], busReceiverCount := 0 } "x"
        { message_type := "PING", data := Json.null, timestamp := 3,
          source := none } =
      ({ connections := [], busReceiverCount := 0 }, Except.ok (), []) :=
  ⟨rfl,
   (absent_send_and_empty_broadcast_ok
     { connections := [], busReceiverCount := 0 } "x"
     { message_type := "PING", data := Json.null, timestamp := 3,
       source := none } rfl).1⟩

/-- C7 (code bug): the status command returns a constant document whose
port field is 3001 and whose connected_extensions field is 0, taking no
server state at all, while start_websocket_server binds the server to
ws_port = 3010 — so the reported port differs from the bound port and
the reported session count is fixed at zero. -/
theorem status_constant_code_bug :
    get_websocket_status = Except.ok (Json.obj
      [ ("status", Json.str "running")
      , ("port", Json.num 3001)
      , ("connected_extensions", Json.num 0) ]) ∧
    ws_port = 3010 ∧
    (3001 : Int) ≠ Int.ofNat ws_port :=
  ⟨rfl, rfl, by decide⟩

/-- C1: on every successfully accepted connection the handler originates
exactly one direct (non-relayed) transport send, and that send is the
WELCOME envelope; it is also the first transport send of any kind on the
connection; and the welcome's data carries the assigned connection id
and a timestamp. -/
theorem welcome_unique_and_first (s : ConnScript)
    (h : s.acceptOk = true) :
    (handleConnection s).filter ConnEffect.isDirectSend =
      [ConnEffect.sentMessage false (welcomeMessage s.connectionId s.now)] ∧
    ((handleConnection s).filter ConnEffect.isSend).head? =
      some (ConnEffect.sentMessage false
        (welcomeMessage s.connectionId s.now)) ∧
    (welcomeMessage s.connectionId s.now).message_type = "WELCOME" ∧
    (welcomeMessage s.connectionId s.now).data.get "connection_id" =
      some (Json.str s.connectionId) ∧
    (welcomeMessage s.connectionId s.now).data.get "timestamp" =
      some (Json.num (Int.ofNat s.now)) := by
  refine ⟨?_, ?_, rfl, rfl, rfl⟩
  · cases hw : s.welcomeSendOk with
    | false =>
      simp [handleConnection, h, hw, List.filter_cons,
        ConnEffect.isDirectSend]
    | true =>
      have ht := teardownTrace_filter_direct s.schedule
        ((readerLoop s.inEvents).map readerEffect)
        ((writerLoop s.outItems).map writerEffect)
        s.connectionId s.removeDelay
        (loop_effect_shape s.inEvents s.outItems)
      simp [handleConnection, h, hw, List.filter_cons,
        ConnEffect.isDirectSend, ht]
  · cases hw : s.welcomeSendOk with
    | false =>
      simp [handleConnection, h, hw, List.filter_cons, ConnEffect.isSend]
    | true =>
      simp [handleConnection, h, hw, List.filter_cons, ConnEffect.isSend]

/-- C2: once both loops have been started (accept and welcome send
succeeded), whatever the inbound events, outbound items, interleaving
and removal delay are — including both loops failing — the handler's
trace contains exactly one registry removal of the connection's id, and
the removal comes after the complete effect sequence of whichever loop
terminated first; the abandoned loop's effects may continue after it. -/
theorem deregistration_exactly_once (s : ConnScript)
    (h1 : s.acceptOk = true) (h2 : s.welcomeSendOk = true) :
    ((handleConnection s).filter
      (ConnEffect.isRemoveOf s.connectionId)).length = 1 ∧
    ∃ pre post,
      handleConnection s =
        pre ++ ConnEffect.registryRemove s.connectionId :: post ∧
      (List.Sublist ((readerLoop s.inEvents).map readerEffect) pre ∨
       List.Sublist ((writerLoop s.outItems).map writerEffect) pre) := by
  constructor
  · have hfil := teardownTrace_filter_remove s.schedule
      ((readerLoop s.inEvents).map readerEffect)
      ((writerLoop s.outItems).map writerEffect)
      s.connectionId s.removeDelay
      (loop_effect_shape s.inEvents s.outItems)
    simp [handleConnection, h1, h2, List.filter_cons,
      ConnEffect.isRemoveOf, hfil]
  · refine ⟨ConnEffect.registryInsert s.connectionId ::
      ConnEffect.sentMessage false (welcomeMessage s.connectionId s.now) ::
      ((raceMerge s.schedule ((readerLoop s.inEvents).map readerEffect)
        ((writerLoop s.outItems).map writerEffect)).1 ++
       (raceMerge s.schedule ((readerLoop s.inEvents).map readerEffect)
        ((writerLoop s.outItems).map writerEffect)).2.take s.removeDelay),
      (raceMerge s.schedule ((readerLoop s.inEvents).map readerEffect)
        ((writerLoop s.outItems).map writerEffect)).2.drop s.removeDelay,
      ?_, ?_⟩
    · simp [handleConnection, h1, h2, teardownTrace, List.cons_append,
        List.append_assoc]
    · rcases raceMerge_first_complete s.schedule
        ((readerLoop s.inEvents).map readerEffect)
        ((writerLoop s.outItems).map writerEffect) with hrd | hwt
      · exact Or.inl (((hrd.trans
          (List.sublist_append_left _ _)).cons _).cons _)
      · exact Or.inr (((hwt.trans
          (List.sublist_append_left _ _)).cons _).cons _)

/-- Sample envelope used by the concrete witnesses. -/
def sampleMsg : WebSocketMessage :=
  { message_type := "PING", data := Json.null, timestamp := 3,
    source := none }

/-- Sample connection script used by the concrete witnesses: accept and
welcome both succeed, one decoded inbound frame, one outbound item, a
two-step schedule under which the writer completes first, and a removal
that happens before the abandoned reader's final publication. -/
def sampleScript : ConnScript :=
  { acceptOk := true
  , connectionId := "conn-1"
  , now := 7
  , welcomeSendOk := true
  , inEvents := [InEvent.text (some sampleMsg)]
  , outItems := [{ message := sampleMsg, serResult := some "p", writeOk := true }]
  , schedule := [true, false]
  , removeDelay := 0 }

/-- Witness for C1 at the sample script. -/
theorem welcome_unique_and_first_witness :
    sampleScript.acceptOk = true ∧
    (handleConnection sampleScript).filter ConnEffect.isDirectSend =
      [ConnEffect.sentMessage false (welcomeMessage "conn-1" 7)] :=
  ⟨rfl, (welcome_unique_and_first sampleScript rfl).1⟩

/-- Witness for C2 at the sample script. -/
theorem deregistration_exactly_once_witness :
    sampleScript.acceptOk = true ∧
    sampleScript.welcomeSendOk = true ∧
    ((handleConnection sampleScript).filter
      (ConnEffect.isRemoveOf "conn-1")).length = 1 :=
  ⟨rfl, rfl, (deregistration_exactly_once sampleScript rfl rfl).1⟩
